import Mathlib

/-!
Shallow embedding of `app.py` from the view-review repository: a small Flask
front-end over the GitHub API (PR list, PR detail with review comments, reply
posting, health check) plus a time-formatting helper.

Python dictionaries coming from JSON are modelled as association lists of
string keys and `Val` values; the GitHub API client (module `github`, not part
of the translated source) is modelled as an abstract behaviour record giving
each method's outcome (`Except PyExc`); handlers become total functions from
that behaviour and the request data to a response paired with the trace of API
calls they performed.
-/

namespace ViewReview

/-- A Python/JSON value as it flows through the handlers.  `vmarkup` is a
string wrapped in `markupsafe.Markup` (a `str` subclass marked HTML-safe). -/
inductive Val where
  | vnull
  | vbool (b : Bool)
  | vint (n : Int)
  | vstr (s : String)
  | vmarkup (s : String)
  | varr (xs : List Val)
  | vobj (fields : List (String × Val))

/-- Python truthiness for `Val`: `None`, `False`, `0`, empty strings and empty
containers are falsy. -/
def Val.truthy : Val → Bool
  | .vnull => false
  | .vbool b => b
  | .vint n => n != 0
  | .vstr s => s != ""
  | .vmarkup s => s != ""
  | .varr xs => !xs.isEmpty
  | .vobj fs => !fs.isEmpty

/-- Python `d.get(k)` on a dict modelled as an association list. -/
def dictGet (d : List (String × Val)) (k : String) : Option Val :=
  (d.find? (fun p => p.1 == k)).map (fun p => p.2)

/-- Python `d[k] = v` on a dict: replace the value at the first occurrence of
the key, keeping its position (and original key object), append at the end
otherwise (dict insertion order). -/
def dictSet : List (String × Val) → String → Val → List (String × Val)
  | [], k, v => [(k, v)]
  | (k0, v0) :: rest, k, v =>
    if k0 == k then (k0, v) :: rest else (k0, v0) :: dictSet rest k v

/-!
Model of Python `str()` / `repr()` on `Val`, needed only because
`markupsafe.Markup(x)` stringifies non-string arguments.  String escaping
inside `repr` is not modelled (no claim exercises it).
-/

mutual

/-- Python `str(v)`. -/
def pyStr : Val → String
  | .vnull => "None"
  | .vbool b => if b then "True" else "False"
  | .vint n => toString n
  | .vstr s => s
  | .vmarkup s => "Markup(\x27" ++ s ++ "\x27)"
  | .varr xs => "[" ++ pyReprList xs ++ "]"
  | .vobj fs => "\x7b" ++ pyReprFields fs ++ "\x7d"

/-- Python `repr(v)` (quotes bare strings, defers to `pyStr` otherwise). -/
def pyRepr : Val → String
  | .vstr s => "\x27" ++ s ++ "\x27"
  | v => pyStr v

/-- Comma-separated `repr`s of the elements of a Python list. -/
def pyReprList : List Val → String
  | [] => ""
  | [x] => pyRepr x
  | x :: xs => pyRepr x ++ ", " ++ pyReprList xs

/-- Comma-separated `key: repr(value)` entries of a Python dict. -/
def pyReprFields : List (String × Val) → String
  | [] => ""
  | [(k, v)] => "\x27" ++ k ++ "\x27: " ++ pyRepr v
  | (k, v) :: fs => "\x27" ++ k ++ "\x27: " ++ pyRepr v ++ ", " ++ pyReprFields fs

end

/-- The coercion `markupsafe.Markup(v)`: a `Markup` value passes through unchanged, a plain
string is wrapped without escaping, any other value is stringified first. -/
def wrapMarkup : Val → Val
  | .vstr s => .vmarkup s
  | .vmarkup s => .vmarkup s
  | v => .vmarkup (pyStr v)

/-!
Exceptions and the GitHub API client.  The `github` module is not part of the
translated source; each method's behaviour for the request being handled is an
abstract `Except` outcome carried by a `GitHubAPI` record.  `PyExc.other`
covers every exception that is not a `GitHubAPIError` (the handlers only
distinguish these two cases); its payload is `str(e)`.
-/

/-- An exception as the handlers observe it: either a `GitHubAPIError` or any
other Python exception, with its `str(e)` message. -/
inductive PyExc where
  | gitHubAPIError (msg : String)
  | other (msg : String)

/-- The outcome of each GitHub API method for the current request, as a
function of the arguments the handler passes. -/
structure GitHubAPI where
  get_repo_info : Except PyExc (List (String × Val))
  get_my_pr_list : String → Except PyExc Val
  get_comments_for_pr : Val → Val → Nat → Bool → Except PyExc Val
  add_reply_to_comment : Val → Val → Nat → String → String → Except PyExc Unit

/-- One GitHub API invocation as recorded in a handler's trace, with the
arguments the handler passed. -/
inductive ApiCall where
  | get_repo_info
  | get_my_pr_list (state : String)
  | get_comments_for_pr (owner name : Val) (pr_number : Nat) (include_resolved : Bool)
  | add_reply_to_comment (owner name : Val) (pr_number : Nat) (comment_id : String) (body : String)

/-- The four methods of the GitHub API client. -/
inductive ApiMethod where
  | get_repo_info
  | get_my_pr_list
  | get_comments_for_pr
  | add_reply_to_comment
deriving DecidableEq

/-- The method a recorded call invoked. -/
def ApiCall.toMethod : ApiCall → ApiMethod
  | .get_repo_info => .get_repo_info
  | .get_my_pr_list _ => .get_my_pr_list
  | .get_comments_for_pr _ _ _ _ => .get_comments_for_pr
  | .add_reply_to_comment _ _ _ _ _ => .add_reply_to_comment

/-- Whether an `Except` outcome is an exception. -/
def isErr : Except PyExc α → Bool
  | .error _ => true
  | .ok _ => false

/-- Whether a recorded call's outcome (under the given API behaviour) was an
exception. -/
def callFails (api : GitHubAPI) : ApiCall → Bool
  | .get_repo_info => isErr api.get_repo_info
  | .get_my_pr_list s => isErr (api.get_my_pr_list s)
  | .get_comments_for_pr o n pr ir => isErr (api.get_comments_for_pr o n pr ir)
  | .add_reply_to_comment o n pr cid b => isErr (api.add_reply_to_comment o n pr cid b)

/-- A response from a route handler: rendered HTML (template name plus render
context) or a JSON body, with the HTTP status code. -/
inductive Response where
  | html (template : String) (context : List (String × Val)) (status : Nat)
  | json (body : List (String × Val)) (status : Nat)

/-- The HTTP status code of a response. -/
def Response.status : Response → Nat
  | .html _ _ s => s
  | .json _ s => s

/-- Whether a response's body is rendered HTML (a rendered template). -/
def Response.isHtml : Response → Bool
  | .html _ _ _ => true
  | .json _ _ => false

/-- The application configuration object, as far as the handlers read it. -/
structure Config where
  DEFAULT_PR_STATE : String

/-- Modelled from the spec: the configuration loader (module `config`, absent
from the translated source) supplies `DEFAULT_PR_STATE`; the spec describes
the front-end as letting the user browse their open pull requests, so the
default PR state is "open". -/
def defaultConfig : Config :=
  { DEFAULT_PR_STATE := "open" }

/-- The config object as it appears in a template render context. -/
def cfgVal (cfg : Config) : Val :=
  .vobj [("DEFAULT_PR_STATE", .vstr cfg.DEFAULT_PR_STATE)]

/-- Python's `str.strip()` (no argument): drop leading and trailing
whitespace.  Modelled over the string's character list; the whitespace class
is `Char.isWhitespace` (space, tab, CR, LF), which agrees with Python on
every character the handlers see. -/
def pyStrip (s : String) : String :=
  ⟨((s.data.dropWhile Char.isWhitespace).reverse.dropWhile Char.isWhitespace).reverse⟩

/-- Python's `str.lower()`, modelled characterwise. -/
def pyLower (s : String) : String :=
  ⟨s.data.map Char.toLower⟩

/-- Worker for `pyReplace`: replace non-overlapping occurrences of `old`
(non-empty) left to right.  Each step consumes at least one character and one
unit of fuel, so fuel equal to the string length never runs out. -/
def pyReplaceAux (old new : List Char) : Nat → List Char → List Char
  | _, [] => []
  | 0, l => l
  | fuel + 1, c :: rest =>
    if old.isPrefixOf (c :: rest) then
      new ++ pyReplaceAux old new fuel (rest.drop (old.length - 1))
    else
      c :: pyReplaceAux old new fuel rest

/-- Python's `str.replace(old, new)` for a non-empty `old`: replace every
non-overlapping occurrence, scanning left to right. -/
def pyReplace (s old new : String) : String :=
  ⟨pyReplaceAux old.data new.data s.data.length s.data⟩

/-- Python `str(KeyError(k))`, rendered as the repr of the missing key. -/
def keyErrorStr (k : String) : String := "\x27" ++ k ++ "\x27"

/-- Python `d[k]` on a dict: the value when the key is present, a `KeyError`
otherwise. -/
def getItem (d : List (String × Val)) (k : String) : Except PyExc Val :=
  match dictGet d k with
  | some v => .ok v
  | none => .error (.other (keyErrorStr k))

/-- The prelude shared by the three API-backed handlers:
`repo = github_api.get_repo_info(); owner = repo["owner"]; name = repo["name"]`.
Exactly one API call (`get_repo_info`) is made, whether or not it succeeds. -/
def repoOwnerName (api : GitHubAPI) : Except PyExc (Val × Val) := do
  let repo ← api.get_repo_info
  let owner ← getItem repo "owner"
  let name ← getItem repo "name"
  pure (owner, name)

/-- The error page a page handler renders from a caught exception: the
`except GitHubAPIError` branch renders `error.html` with title
"GitHub 연결 오류" and `str(e)`, the `except Exception` branch renders it with
title "오류 발생" and a prefixed message.  Both carry status 500. -/
def excResponsePage (cfg : Config) : PyExc → Response
  | .gitHubAPIError m => .html "error.html"
      [("error_title", .vstr "GitHub 연결 오류"), ("error_message", .vstr m),
       ("config", cfgVal cfg)] 500
  | .other m => .html "error.html"
      [("error_title", .vstr "오류 발생"),
       ("error_message", .vstr ("예상치 못한 오류가 발생했습니다: " ++ m)),
       ("config", cfgVal cfg)] 500

/-- The JSON error body `add_reply` returns from a caught exception, with
status 500. -/
def excResponseJson : PyExc → Response
  | .gitHubAPIError m => .json [("success", .vbool false), ("error", .vstr m)] 500
  | .other m => .json
      [("success", .vbool false), ("error", .vstr ("예상치 못한 오류: " ++ m))] 500

/-- The query parameters of a request to `/` (`request.args.get("state")`). -/
structure IndexRequest where
  state : Option String

/-- The query parameters of a request to `/pr/<int:pr_number>`. -/
structure DetailRequest where
  include_resolved : Option String
  compact_mode : Option String

/-- The form fields of a POST to `/pr/<int:pr_number>/reply`
(`request.form.get("comment_id")` and `request.form.get("body", "")`). -/
structure ReplyRequest where
  comment_id : Option String
  body : Option String

/-- Handler for `GET /` (`index` in `app.py`): fetch the repository info and
the user's PR list for the requested state and render `index.html`; a caught
exception renders the error page with status 500. -/
def index (cfg : Config) (api : GitHubAPI) (req : IndexRequest) :
    Response × List ApiCall :=
  let state := req.state.getD cfg.DEFAULT_PR_STATE
  match repoOwnerName api with
  | .error e => (excResponsePage cfg e, [.get_repo_info])
  | .ok (owner, name) =>
    match api.get_my_pr_list state with
    | .error e => (excResponsePage cfg e, [.get_repo_info, .get_my_pr_list state])
    | .ok prs =>
      (.html "index.html"
        [("prs", prs), ("owner", owner), ("name", name), ("state", .vstr state),
         ("config", cfgVal cfg)] 200,
       [.get_repo_info, .get_my_pr_list state])

/-- An exception (`AttributeError`/`TypeError`) raised by iterating a non-list or calling
`.get` on a non-dict in the `pr_detail` body-wrapping loop.  The exact
`str(e)` text of these errors is not modelled (no claim depends on it). -/
def attributeError : PyExc := .other "AttributeError"

/-- A `for` loop over a list that mutates each element through `f` and
propagates the first exception: the list of results, or that exception. -/
def mapExcept (f : Val → Except PyExc Val) : List Val → Except PyExc (List Val)
  | [] => .ok []
  | x :: xs => do
    let y ← f x
    let ys ← mapExcept f xs
    pure (y :: ys)

/-- The body of the inner loop of the wrapping pass of `pr_detail`:
`body = reply.get("bodyHTML"); if body: reply["bodyHTML"] = Markup(body)`. -/
def transformReply (r : List (String × Val)) : List (String × Val) :=
  match dictGet r "bodyHTML" with
  | some b => if b.truthy then dictSet r "bodyHTML" (wrapMarkup b) else r
  | none => r

/-- One element of a comment's `replies` list: must be a dict for
`reply.get` to succeed. -/
def transformReplyElem : Val → Except PyExc Val
  | .vobj r => .ok (.vobj (transformReply r))
  | _ => .error attributeError

/-- The value stored under `bodyHTML_safe`:
`Markup(body) if body else Markup("")` for `body = comment.get("bodyHTML")`. -/
def safeBody (c : List (String × Val)) : Val :=
  match dictGet c "bodyHTML" with
  | some b => if b.truthy then wrapMarkup b else .vmarkup ""
  | none => .vmarkup ""

/-- The body of the outer loop of the wrapping pass of `pr_detail`: set
`comment["bodyHTML_safe"]` from `comment.get("bodyHTML")` (empty `Markup`
when absent or falsy), then wrap each truthy reply body in place. -/
def transformComment (c : List (String × Val)) : Except PyExc (List (String × Val)) :=
  let c1 := dictSet c "bodyHTML_safe" (safeBody c)
  match dictGet c1 "replies" with
  | some rv =>
    if rv.truthy then
      match rv with
      | .varr rs => do
          let rs1 ← mapExcept transformReplyElem rs
          pure (dictSet c1 "replies" (.varr rs1))
      | _ => .error attributeError
    else pure c1
  | none => pure c1

/-- One element of the comments list: must be a dict for `comment.get`
to succeed. -/
def transformCommentElem : Val → Except PyExc Val
  | .vobj c => (transformComment c).map .vobj
  | _ => .error attributeError

/-- The wrapping pass of `pr_detail` over a PR-data dict:
`comments = pr_data.get("comments", [])`; when truthy, wrap every comment
(and its replies) in place. -/
def transformPrData (fs : List (String × Val)) : Except PyExc (List (String × Val)) :=
  let comments := (dictGet fs "comments").getD (.varr [])
  if comments.truthy then
    match comments with
    | .varr cs => do
        let cs1 ← mapExcept transformCommentElem cs
        pure (dictSet fs "comments" (.varr cs1))
    | _ => .error attributeError
  else pure fs

/-- The wrapping pass applied to the raw (truthy) `pr_data` value, which must
be a dict for `pr_data.get` to succeed. -/
def transformPrDataVal : Val → Except PyExc Val
  | .vobj fs => (transformPrData fs).map .vobj
  | _ => .error attributeError

/-- Handler for `GET /pr/<int:pr_number>` (`pr_detail` in `app.py`): fetch the
repository info and the PR's comment data, return the 404 error page when the
data is falsy, otherwise wrap comment bodies as `Markup` and render
`pr_detail.html`; a caught exception renders the error page with status
500. -/
def pr_detail (cfg : Config) (api : GitHubAPI) (pr_number : Nat)
    (req : DetailRequest) : Response × List ApiCall :=
  let include_resolved := pyLower (req.include_resolved.getD "false") == "true"
  let compact_mode := pyLower (req.compact_mode.getD "false") == "true"
  match repoOwnerName api with
  | .error e => (excResponsePage cfg e, [.get_repo_info])
  | .ok (owner, name) =>
    match api.get_comments_for_pr owner name pr_number include_resolved with
    | .error e => (excResponsePage cfg e,
        [.get_repo_info, .get_comments_for_pr owner name pr_number include_resolved])
    | .ok pr_data =>
      let trace : List ApiCall :=
        [.get_repo_info, .get_comments_for_pr owner name pr_number include_resolved]
      if !pr_data.truthy then
        (.html "error.html"
          [("error_title", .vstr "PR을 찾을 수 없습니다"),
           ("error_message",
            .vstr ("PR #" ++ toString pr_number ++ "을(를) 찾을 수 없습니다.")),
           ("config", cfgVal cfg)] 404, trace)
      else
        match transformPrDataVal pr_data with
        | .error e => (excResponsePage cfg e, trace)
        | .ok pr1 =>
          (.html "pr_detail.html"
            [("pr", pr1), ("owner", owner), ("name", name),
             ("include_resolved", .vbool include_resolved),
             ("compact_mode", .vbool compact_mode), ("config", cfgVal cfg)] 200,
           trace)

/-- Handler for `POST /pr/<int:pr_number>/reply` (`add_reply` in `app.py`):
fetch the repository info, validate the form (`comment_id` present and
non-empty, `body` non-empty after stripping), post the reply and return JSON;
a caught exception returns a JSON error with status 500. -/
def add_reply (_cfg : Config) (api : GitHubAPI) (pr_number : Nat)
    (req : ReplyRequest) : Response × List ApiCall :=
  match repoOwnerName api with
  | .error e => (excResponseJson e, [.get_repo_info])
  | .ok (owner, name) =>
    let comment_id := req.comment_id.getD ""
    let body := pyStrip (req.body.getD "")
    if comment_id == "" || body == "" then
      (.json [("success", .vbool false),
              ("error", .vstr "comment_id와 body가 필요합니다.")] 400,
       [.get_repo_info])
    else
      match api.add_reply_to_comment owner name pr_number comment_id body with
      | .error e => (excResponseJson e,
          [.get_repo_info, .add_reply_to_comment owner name pr_number comment_id body])
      | .ok _ =>
        (.json [("success", .vbool true)] 200,
         [.get_repo_info, .add_reply_to_comment owner name pr_number comment_id body])

/-- Handler for `GET /health` (`health` in `app.py`).  The source handler
reads nothing; the config and API parameters are part of the handler
signature only so that independence from them can be stated. -/
def health (_cfg : Config) (_api : GitHubAPI) : Response × List ApiCall :=
  (.json [("status", .vstr "ok"), ("service", .vstr "code-review-checker")] 200, [])

/-- ISO-8601 parsing (`datetime.fromisoformat` composed with the tz-aware
`datetime.now` of the same instant) is library behaviour outside the source;
`format_time` takes it as a parameter: `fromisoformat ts` is `none` when
parsing raises, `some dt` (the parsed instant in whole seconds) otherwise,
and `now` is the current instant in the same scale.  `diff.days` and
`diff.seconds` follow Python's `timedelta` normalisation: days is the floor
division of the total seconds by 86400 and seconds the remainder in
[0, 86400). -/
def format_time (fromisoformat : String → Option Int) (now : Int)
    (timestamp : String) : String :=
  if timestamp == "" then ""
  else
    match fromisoformat (pyReplace timestamp "Z" "+00:00") with
    | some dt =>
      let total := now - dt
      let days := total.fdiv 86400
      let seconds := total.emod 86400
      if days > 365 then toString (days.fdiv 365) ++ "년 전"
      else if days > 30 then toString (days.fdiv 30) ++ "개월 전"
      else if days > 0 then toString days ++ "일 전"
      else if seconds > 3600 then toString (seconds.fdiv 3600) ++ "시간 전"
      else if seconds > 60 then toString (seconds.fdiv 60) ++ "분 전"
      else "방금 전"
    | none => timestamp.take 10

/-- An HTTP method of a registered route. -/
inductive HttpMethod where
  | GET
  | POST
deriving DecidableEq

/-- One segment of a route's URL rule: a literal path segment or an
`<int:...>` converter parameter. -/
inductive Seg where
  | lit (s : String)
  | intParam (s : String)
deriving DecidableEq

/-- Which handler a registered route dispatches to. -/
inductive HandlerTag where
  | index
  | pr_detail
  | add_reply
  | health
deriving DecidableEq

/-- A route registered on the Flask app: its methods, its URL rule split into
segments (the root rule "/" having none), and its handler. -/
structure Route where
  methods : List HttpMethod
  path : List Seg
  handler : HandlerTag
deriving DecidableEq

/-- The routes `create_app` registers, in registration order (`@app.route`
defaults to GET). -/
def create_app_routes : List Route :=
  [⟨[.GET], [], .index⟩,
   ⟨[.GET], [.lit "pr", .intParam "pr_number"], .pr_detail⟩,
   ⟨[.POST], [.lit "pr", .intParam "pr_number", .lit "reply"], .add_reply⟩,
   ⟨[.GET], [.lit "health"], .health⟩]


/-!
Shared notions used by the claim statements, and concrete API behaviours used
as witness inputs.
-/

/-- How many calls in a trace invoked the given API method. -/
def methodCount (t : List ApiCall) (m : ApiMethod) : Nat :=
  (t.filter (fun c => c.toMethod == m)).length

/-- No call in the trace other than (possibly) the last one failed: once a
call raises, the handler makes no further API call. -/
def noCallAfterFailure (api : GitHubAPI) (t : List ApiCall) : Bool :=
  t.dropLast.all (fun c => !callFails api c)

/-- If the last call of the trace failed, the response is an error response
(status at least 400). -/
def lastFailureGivesError (api : GitHubAPI) (r : Response × List ApiCall) : Bool :=
  match r.2.getLast? with
  | some c => !callFails api c || decide (400 ≤ r.1.status)
  | none => true

/-- The form-validation condition of `add_reply`: `comment_id` missing or
empty, or `body` empty after stripping. -/
def replyFormInvalid (req : ReplyRequest) : Bool :=
  req.comment_id.getD "" == "" || pyStrip (req.body.getD "") == ""

/-- A behaviour where every API method succeeds, used as a witness input. -/
def apiAllOk : GitHubAPI :=
  { get_repo_info := .ok [("owner", .vstr "me"), ("name", .vstr "repo")]
    get_my_pr_list := fun _ => .ok (.varr [])
    get_comments_for_pr := fun _ _ _ _ => .ok (.vobj [("comments", .varr [])])
    add_reply_to_comment := fun _ _ _ _ _ => .ok () }

/-- A behaviour where every API method raises `GitHubAPIError`, used as a
witness input. -/
def apiDown : GitHubAPI :=
  { get_repo_info := .error (.gitHubAPIError "GitHub API unreachable")
    get_my_pr_list := fun _ => .error (.gitHubAPIError "GitHub API unreachable")
    get_comments_for_pr := fun _ _ _ _ => .error (.gitHubAPIError "GitHub API unreachable")
    add_reply_to_comment := fun _ _ _ _ _ => .error (.gitHubAPIError "GitHub API unreachable") }

/-- When the shared prelude delivered an owner and a name, `get_repo_info`
itself succeeded. -/
theorem repoOwnerName_ok_isErr (api : GitHubAPI) (p : Val × Val)
    (h : repoOwnerName api = .ok p) : isErr api.get_repo_info = false := by
  rcases hg : api.get_repo_info with e | repo
  · rw [repoOwnerName, hg] at h
    simp [Bind.bind, Except.bind] at h
  · rfl

/-- Claim C7: for every request, the health check route returns
`{"status": "ok", "service": "code-review-checker"}`, performs no GitHub API
call (empty trace), and does not depend on the request, the configuration or
the API behaviour (the result is the same constant for all of them). -/
theorem health_constant_no_api (cfg : Config) (api : GitHubAPI) :
    health cfg api =
      (.json [("status", .vstr "ok"), ("service", .vstr "code-review-checker")] 200,
       []) := rfl

/-- Claim C6: the application registers exactly four routes: the PR list at
GET "/", the PR detail at GET "/pr/<int:pr_number>", the reply submission at
POST "/pr/<int:pr_number>/reply" and the health check at GET "/health"; a
route is registered iff it is one of these four. -/
theorem create_app_route_table :
    create_app_routes.length = 4 ∧
    ∀ r : Route, r ∈ create_app_routes ↔
      (r = ⟨[.GET], [], .index⟩ ∨
       r = ⟨[.GET], [.lit "pr", .intParam "pr_number"], .pr_detail⟩ ∨
       r = ⟨[.POST], [.lit "pr", .intParam "pr_number", .lit "reply"], .add_reply⟩ ∨
       r = ⟨[.GET], [.lit "health"], .health⟩) := by
  refine ⟨rfl, fun r => ?_⟩
  simp [create_app_routes]

/-- The error page is rendered HTML for either kind of caught exception. -/
theorem excResponsePage_isHtml (cfg : Config) (e : PyExc) :
    (excResponsePage cfg e).isHtml = true := by
  cases e <;> rfl

/-- The error page carries status 500 for either kind of caught exception. -/
theorem excResponsePage_status (cfg : Config) (e : PyExc) :
    (excResponsePage cfg e).status = 500 := by
  cases e <;> rfl

/-- The JSON error of `add_reply` carries status 500 for either kind of
caught exception. -/
theorem excResponseJson_status (e : PyExc) :
    (excResponseJson e).status = 500 := by
  cases e <;> rfl

/-- The JSON error of `add_reply` is not HTML. -/
theorem excResponseJson_not_html (e : PyExc) :
    (excResponseJson e).isHtml = false := by
  cases e <;> rfl

/-- Claim C2 counterexample: the reply route calls the remote GitHub API (its
call trace is non-empty) yet returns a JSON body, not rendered HTML, so it is
false that every API-calling route returns rendered HTML.  Concrete input:
POST /pr/3/reply with form comment_id "c1", body "hi", under a fully
successful API behaviour. -/
theorem add_reply_returns_json_counterexample :
    (add_reply defaultConfig apiAllOk 3 ⟨some "c1", some "hi"⟩).2 ≠ [] ∧
    (add_reply defaultConfig apiAllOk 3 ⟨some "c1", some "hi"⟩).1.isHtml = false := by
  constructor
  · have h : (add_reply defaultConfig apiAllOk 3 ⟨some "c1", some "hi"⟩).2 =
        [.get_repo_info, .add_reply_to_comment (.vstr "me") (.vstr "repo") 3 "c1" "hi"] := rfl
    rw [h]
    simp
  · rfl

/-- Claim C2 (amended): of the routes that call the GitHub API, the two page
routes — the PR list at GET "/" and the PR detail at GET "/pr/<pr_number>" —
return rendered HTML for every request and every API behaviour; the reply
route returns JSON instead. -/
theorem api_page_routes_render_html (cfg : Config) (api : GitHubAPI)
    (ireq : IndexRequest) (pr : Nat) (dreq : DetailRequest) (rreq : ReplyRequest) :
    (index cfg api ireq).1.isHtml = true ∧
    (pr_detail cfg api pr dreq).1.isHtml = true ∧
    (add_reply cfg api pr rreq).1.isHtml = false := by
  refine ⟨?_, ?_, ?_⟩
  · unfold index
    split
    · exact excResponsePage_isHtml cfg _
    · dsimp only
      split
      · exact excResponsePage_isHtml cfg _
      · rfl
  · unfold pr_detail
    split
    · exact excResponsePage_isHtml cfg _
    · dsimp only
      split
      · exact excResponsePage_isHtml cfg _
      · split
        · rfl
        · split
          · exact excResponsePage_isHtml cfg _
          · rfl
  · unfold add_reply
    split
    · exact excResponseJson_not_html _
    · dsimp only
      split
      · rfl
      · split
        · exact excResponseJson_not_html _
        · rfl

/-- Claim C3: with no "state" query parameter, the PR list route fetches the
PR list with state "open" (the spec-modelled default): every `get_my_pr_list`
call in its trace carries state "open", and whenever the repository prelude
succeeds the call `get_my_pr_list "open"` is actually in the trace. -/
theorem index_default_state_open (api : GitHubAPI) :
    ((index defaultConfig api ⟨none⟩).2.all
      (fun c => match c with | .get_my_pr_list s => s == "open" | _ => true)) = true ∧
    (∀ p, repoOwnerName api = .ok p →
      .get_my_pr_list "open" ∈ (index defaultConfig api ⟨none⟩).2) := by
  constructor
  · unfold index
    split
    · rfl
    · dsimp only
      split <;> rfl
  · intro p hp
    unfold index
    split
    · rename_i e heq
      rw [heq] at hp
      simp at hp
    · dsimp only
      split <;> simp [defaultConfig]

/-- Witness for C3 at a concrete successful API behaviour. -/
theorem index_default_state_open_witness :
    .get_my_pr_list "open" ∈ (index defaultConfig apiAllOk ⟨none⟩).2 :=
  (index_default_state_open apiAllOk).2 (.vstr "me", .vstr "repo") rfl

/-- Claim C1: for every request and API behaviour, each of the three
API-backed handlers invokes every GitHub API method at most once; no call in
a trace other than (possibly) the last one failed, so after a call raises
the handler makes no further API call (no retry, and `get_repo_info` is
re-fetched per request, never cached across the calls of one handler); and
when the last call of the trace raised, the handler returns an error
response. -/
theorem handlers_api_at_most_once_no_retry (cfg : Config) (api : GitHubAPI)
    (ireq : IndexRequest) (dreq : DetailRequest) (rreq : ReplyRequest)
    (prd prr : Nat) (m : ApiMethod) :
    (methodCount (index cfg api ireq).2 m ≤ 1 ∧
     noCallAfterFailure api (index cfg api ireq).2 = true ∧
     lastFailureGivesError api (index cfg api ireq) = true) ∧
    (methodCount (pr_detail cfg api prd dreq).2 m ≤ 1 ∧
     noCallAfterFailure api (pr_detail cfg api prd dreq).2 = true ∧
     lastFailureGivesError api (pr_detail cfg api prd dreq) = true) ∧
    (methodCount (add_reply cfg api prr rreq).2 m ≤ 1 ∧
     noCallAfterFailure api (add_reply cfg api prr rreq).2 = true ∧
     lastFailureGivesError api (add_reply cfg api prr rreq) = true) := by
  refine ⟨?_, ?_, ?_⟩
  · unfold index
    split
    · refine ⟨?_, rfl, ?_⟩
      · cases m <;> simp [methodCount, ApiCall.toMethod]
      · simp [lastFailureGivesError, excResponsePage_status]
    · rename_i owner name heq
      dsimp only
      split <;> rename_i h2
      all_goals refine ⟨?_, ?_, ?_⟩
      · cases m <;> simp [methodCount, ApiCall.toMethod]
      · simp [noCallAfterFailure, callFails, repoOwnerName_ok_isErr api _ heq]
      · simp [lastFailureGivesError, callFails, excResponsePage_status]
      · cases m <;> simp [methodCount, ApiCall.toMethod]
      · simp [noCallAfterFailure, callFails, repoOwnerName_ok_isErr api _ heq]
      · simp [lastFailureGivesError, callFails, h2, isErr]
  · unfold pr_detail
    split
    · refine ⟨?_, rfl, ?_⟩
      · cases m <;> simp [methodCount, ApiCall.toMethod]
      · simp [lastFailureGivesError, excResponsePage_status]
    · rename_i owner name heq
      dsimp only
      split <;> rename_i h2
      · refine ⟨?_, ?_, ?_⟩
        · cases m <;> simp [methodCount, ApiCall.toMethod]
        · simp [noCallAfterFailure, callFails, repoOwnerName_ok_isErr api _ heq]
        · simp [lastFailureGivesError, callFails, excResponsePage_status]
      · split
        · refine ⟨?_, ?_, ?_⟩
          · cases m <;> simp [methodCount, ApiCall.toMethod]
          · simp [noCallAfterFailure, callFails, repoOwnerName_ok_isErr api _ heq]
          · simp [lastFailureGivesError, callFails, h2, isErr]
        · split
          all_goals refine ⟨?_, ?_, ?_⟩
          · cases m <;> simp [methodCount, ApiCall.toMethod]
          · simp [noCallAfterFailure, callFails, repoOwnerName_ok_isErr api _ heq]
          · simp [lastFailureGivesError, callFails, h2, isErr]
          · cases m <;> simp [methodCount, ApiCall.toMethod]
          · simp [noCallAfterFailure, callFails, repoOwnerName_ok_isErr api _ heq]
          · simp [lastFailureGivesError, callFails, h2, isErr]
  · unfold add_reply
    split
    · refine ⟨?_, rfl, ?_⟩
      · cases m <;> simp [methodCount, ApiCall.toMethod]
      · simp [lastFailureGivesError, excResponseJson_status]
    · rename_i owner name heq
      dsimp only
      split
      · refine ⟨?_, ?_, ?_⟩
        · cases m <;> simp [methodCount, ApiCall.toMethod]
        · rfl
        · simp [lastFailureGivesError, callFails, repoOwnerName_ok_isErr api _ heq]
      · split <;> rename_i h2
        all_goals refine ⟨?_, ?_, ?_⟩
        · cases m <;> simp [methodCount, ApiCall.toMethod]
        · simp [noCallAfterFailure, callFails, repoOwnerName_ok_isErr api _ heq]
        · simp [lastFailureGivesError, callFails, excResponseJson_status]
        · cases m <;> simp [methodCount, ApiCall.toMethod]
        · simp [noCallAfterFailure, callFails, repoOwnerName_ok_isErr api _ heq]
        · simp [lastFailureGivesError, callFails, h2, isErr]

/-- Claim C4: for every reply request whose `comment_id` is non-empty and
whose `body` is non-empty after stripping, when the repository info yields an
owner and a name and the posting call succeeds, the reply route forwards
exactly that owner and name, the `pr_number` from the URL, the `comment_id`,
and the stripped body to `add_reply_to_comment`, and returns
`{"success": true}`. -/
theorem add_reply_forwards_and_succeeds (cfg : Config) (api : GitHubAPI)
    (pr : Nat) (cid bodyRaw : String) (repo : List (String × Val))
    (owner name : Val)
    (hrepo : api.get_repo_info = .ok repo)
    (howner : dictGet repo "owner" = some owner)
    (hname : dictGet repo "name" = some name)
    (hcid : cid ≠ "")
    (hbody : pyStrip bodyRaw ≠ "")
    (hok : api.add_reply_to_comment owner name pr cid (pyStrip bodyRaw) = .ok ()) :
    add_reply cfg api pr ⟨some cid, some bodyRaw⟩ =
      (.json [("success", .vbool true)] 200,
       [.get_repo_info, .add_reply_to_comment owner name pr cid (pyStrip bodyRaw)]) := by
  have hro : repoOwnerName api = .ok (owner, name) := by
    rw [repoOwnerName, hrepo]
    simp [Bind.bind, Except.bind, Pure.pure, Except.pure, getItem, howner, hname]
  unfold add_reply
  rw [hro]
  dsimp only [Option.getD_some]
  rw [if_neg (by simp [hcid, hbody]), hok]

/-- Witness for C4 at a concrete request and successful API behaviour. -/
theorem add_reply_forwards_and_succeeds_witness :
    add_reply defaultConfig apiAllOk 3 ⟨some "c1", some " hi "⟩ =
      (.json [("success", .vbool true)] 200,
       [.get_repo_info,
        .add_reply_to_comment (.vstr "me") (.vstr "repo") 3 "c1" (pyStrip " hi ")]) :=
  add_reply_forwards_and_succeeds defaultConfig apiAllOk 3 "c1" " hi "
    [("owner", .vstr "me"), ("name", .vstr "repo")] (.vstr "me") (.vstr "repo")
    rfl rfl rfl (by decide) (by decide) rfl

/-- Claim C9 counterexample: a request whose form is invalid (no comment_id,
no body) can still get status 500 rather than 400, because `get_repo_info`
is called before the form is validated; here it raises, so the claimed
equivalence "status 400 iff the form is invalid" fails at this input. -/
theorem add_reply_400_counterexample :
    replyFormInvalid ⟨none, none⟩ = true ∧
    (add_reply defaultConfig apiDown 1 ⟨none, none⟩).1.status = 500 ∧
    ¬ (add_reply defaultConfig apiDown 1 ⟨none, none⟩).1.status = 400 := by
  refine ⟨rfl, rfl, by decide⟩

/-- Claim C9 (amended): provided the repository prelude (`get_repo_info` and
the owner/name lookups) succeeds, the reply route returns status 400 with
`{"success": false}` iff the form's comment_id is missing or empty or its
body is empty after stripping; and whenever the form is invalid,
`add_reply_to_comment` is never invoked — under any API behaviour — so no
reply is posted. -/
theorem add_reply_400_iff_invalid_form (cfg : Config) (api : GitHubAPI)
    (pr : Nat) (req : ReplyRequest) (p : Val × Val)
    (hro : repoOwnerName api = .ok p) :
    ((add_reply cfg api pr req).1.status = 400 ↔ replyFormInvalid req = true) ∧
    (replyFormInvalid req = true →
      (add_reply cfg api pr req).1 =
        .json [("success", .vbool false),
               ("error", .vstr "comment_id와 body가 필요합니다.")] 400) ∧
    (∀ cfg2 api2 pr2, replyFormInvalid req = true →
      methodCount (add_reply cfg2 api2 pr2 req).2 .add_reply_to_comment = 0) := by
  obtain ⟨owner, name⟩ := p
  refine ⟨?_, ?_, ?_⟩
  · unfold add_reply
    rw [hro]
    dsimp only
    rcases hv : (req.comment_id.getD "" == "" || pyStrip (req.body.getD "") == "") with _ | _
    · simp only [replyFormInvalid, hv]
      rcases hadd : api.add_reply_to_comment owner name pr (req.comment_id.getD "")
          (pyStrip (req.body.getD "")) with e | u
      · simp [hadd, excResponseJson_status]
      · simp [hadd, Response.status]
    · simp [replyFormInvalid, hv, Response.status]
  · intro hform
    rw [replyFormInvalid] at hform
    unfold add_reply
    rw [hro]
    dsimp only
    simp [hform]
  · intro cfg2 api2 pr2 hform
    rw [replyFormInvalid] at hform
    unfold add_reply
    split
    · rfl
    · dsimp only
      simp [hform, methodCount, ApiCall.toMethod]

/-- Witness for the amended C9: a concrete invalid form under a successful
API behaviour yields exactly the 400 JSON error. -/
theorem add_reply_400_iff_invalid_form_witness :
    (add_reply defaultConfig apiAllOk 1 ⟨none, none⟩).1 =
      .json [("success", .vbool false),
             ("error", .vstr "comment_id와 body가 필요합니다.")] 400 :=
  (add_reply_400_iff_invalid_form defaultConfig apiAllOk 1 ⟨none, none⟩
    (.vstr "me", .vstr "repo") rfl).2.1 rfl

/-- Claim C10: handlers are total (modelled as total functions: no exception
escapes) and every caught exception is mapped to a status-500 response
carrying the error message — the error page for the two page routes, the
JSON error for the reply route — except that the PR detail route returns
status 404 when `get_comments_for_pr` returns falsy data.  Each conjunct
pins the exact response of the corresponding exceptional branch. -/
theorem handlers_catch_all_exceptions (cfg : Config) (api : GitHubAPI)
    (ireq : IndexRequest) (dreq : DetailRequest) (rreq : ReplyRequest)
    (prd prr : Nat) :
    (∀ e, (excResponsePage cfg e).status = 500 ∧ (excResponseJson e).status = 500) ∧
    (∀ e, repoOwnerName api = .error e →
      index cfg api ireq = (excResponsePage cfg e, [.get_repo_info])) ∧
    (∀ p e, repoOwnerName api = .ok p →
      api.get_my_pr_list (ireq.state.getD cfg.DEFAULT_PR_STATE) = .error e →
      (index cfg api ireq).1 = excResponsePage cfg e) ∧
    (∀ e, repoOwnerName api = .error e →
      pr_detail cfg api prd dreq = (excResponsePage cfg e, [.get_repo_info])) ∧
    (∀ o n e, repoOwnerName api = .ok (o, n) →
      api.get_comments_for_pr o n prd
        (pyLower (dreq.include_resolved.getD "false") == "true") = .error e →
      (pr_detail cfg api prd dreq).1 = excResponsePage cfg e) ∧
    (∀ o n pr_data, repoOwnerName api = .ok (o, n) →
      api.get_comments_for_pr o n prd
        (pyLower (dreq.include_resolved.getD "false") == "true") = .ok pr_data →
      pr_data.truthy = false →
      (pr_detail cfg api prd dreq).1.status = 404) ∧
    (∀ o n pr_data e, repoOwnerName api = .ok (o, n) →
      api.get_comments_for_pr o n prd
        (pyLower (dreq.include_resolved.getD "false") == "true") = .ok pr_data →
      pr_data.truthy = true →
      transformPrDataVal pr_data = .error e →
      (pr_detail cfg api prd dreq).1 = excResponsePage cfg e) ∧
    (∀ e, repoOwnerName api = .error e →
      add_reply cfg api prr rreq = (excResponseJson e, [.get_repo_info])) ∧
    (∀ o n e, repoOwnerName api = .ok (o, n) →
      replyFormInvalid rreq = false →
      api.add_reply_to_comment o n prr (rreq.comment_id.getD "")
        (pyStrip (rreq.body.getD "")) = .error e →
      (add_reply cfg api prr rreq).1 = excResponseJson e) := by
  refine ⟨?_, ?_, ?_, ?_, ?_, ?_, ?_, ?_, ?_⟩
  · exact fun e => ⟨excResponsePage_status cfg e, excResponseJson_status e⟩
  · intro e h
    unfold index
    rw [h]
  · intro p e h1 h2
    obtain ⟨o, n⟩ := p
    unfold index
    rw [h1]
    dsimp only
    rw [h2]
  · intro e h
    unfold pr_detail
    rw [h]
  · intro o n e h1 h2
    unfold pr_detail
    rw [h1]
    dsimp only
    rw [h2]
  · intro o n pr_data h1 h2 ht
    unfold pr_detail
    rw [h1]
    dsimp only
    rw [h2]
    simp [ht, Response.status]
  · intro o n pr_data e h1 h2 ht htr
    unfold pr_detail
    rw [h1]
    dsimp only
    rw [h2]
    simp [ht, htr]
  · intro e h
    unfold add_reply
    rw [h]
  · intro o n e h1 hform hadd
    rw [replyFormInvalid] at hform
    unfold add_reply
    rw [h1]
    dsimp only
    simp [hform, hadd]

/-- Witness for C10: with the whole API raising `GitHubAPIError`, the PR list
route returns exactly the 500 error page after its single API call. -/
theorem handlers_catch_all_exceptions_witness :
    index defaultConfig apiDown ⟨none⟩ =
      (excResponsePage defaultConfig (.gitHubAPIError "GitHub API unreachable"),
       [.get_repo_info]) :=
  (handlers_catch_all_exceptions defaultConfig apiDown ⟨none⟩ ⟨none, none⟩
    ⟨none, none⟩ 1 1).2.1 (.gitHubAPIError "GitHub API unreachable") rfl

/-- The relative-time rendering as the claim describes it: years for more
than 365 days, months for more than 30 days, days for at least one day,
hours for more than 3600 seconds, minutes for more than 60 seconds,
otherwise the "just now" string.  `days` and `seconds` are the `timedelta`
components of the difference.  The rendered strings are the Korean forms the
source returns ("N년 전" = "N years ago", …, "방금 전" = "just now"). -/
def relative_time_spec (days seconds : Int) : String :=
  if 365 < days then toString (days.fdiv 365) ++ "년 전"
  else if 30 < days then toString (days.fdiv 30) ++ "개월 전"
  else if 1 ≤ days then toString days ++ "일 전"
  else if 3600 < seconds then toString (seconds.fdiv 3600) ++ "시간 전"
  else if 60 < seconds then toString (seconds.fdiv 60) ++ "분 전"
  else "방금 전"

/-- Claim C8: `format_time` is total on strings (it is a total function, so
it never raises) and: returns "" on the empty string; returns the
relative-time rendering of the claim for a parseable timestamp (with
`timedelta` components of `now - dt`); and returns the first 10 characters
of the input for an unparseable non-empty string. -/
theorem format_time_total_cases (fromisoformat : String → Option Int)
    (now : Int) (ts : String) :
    (ts = "" → format_time fromisoformat now ts = "") ∧
    (∀ dt, ts ≠ "" → fromisoformat (pyReplace ts "Z" "+00:00") = some dt →
      format_time fromisoformat now ts =
        relative_time_spec ((now - dt).fdiv 86400) ((now - dt).emod 86400)) ∧
    (ts ≠ "" → fromisoformat (pyReplace ts "Z" "+00:00") = none →
      format_time fromisoformat now ts = ts.take 10) := by
  refine ⟨?_, ?_, ?_⟩
  · intro h
    subst h
    rfl
  · intro dt hne hp
    rw [format_time, if_neg (by simp [hne]), hp]
    dsimp only
    rw [relative_time_spec]
    simp only [gt_iff_lt]
    by_cases h1 : 365 < (now - dt).fdiv 86400
    · rw [if_pos h1, if_pos h1]
    · rw [if_neg h1, if_neg h1]
      by_cases h2 : 30 < (now - dt).fdiv 86400
      · rw [if_pos h2, if_pos h2]
      · rw [if_neg h2, if_neg h2]
        by_cases h3 : 0 < (now - dt).fdiv 86400
        · rw [if_pos h3, if_pos (show 1 ≤ (now - dt).fdiv 86400 by omega)]
        · rw [if_neg h3, if_neg (show ¬ 1 ≤ (now - dt).fdiv 86400 by omega)]
  · intro hne hp
    rw [format_time, if_neg (by simp [hne]), hp]

/-- Witness for C8: an unparseable non-empty timestamp comes back as its
first 10 characters. -/
theorem format_time_total_cases_witness :
    format_time (fun _ => none) 0 "2024-01-02T03:04:05Z" = "2024-01-02" :=
  (format_time_total_cases (fun _ => none) 0 "2024-01-02T03:04:05Z").2.2
    (by decide) rfl

/-- Setting a key makes lookup of that key return the new value. -/
theorem dictGet_dictSet_self (d : List (String × Val)) (k : String) (v : Val) :
    dictGet (dictSet d k v) k = some v := by
  induction d with
  | nil => simp [dictSet, dictGet]
  | cons p rest ih =>
    obtain ⟨k0, v0⟩ := p
    rw [dictSet]
    by_cases h : k0 == k
    · rw [if_pos h]
      simp [dictGet, List.find?, h]
    · rw [if_neg h]
      rw [dictGet] at ih ⊢
      simp only [List.find?]
      rw [show (k0 == k) = false by simpa using h]
      exact ih

/-- Setting a key leaves lookup of every other key unchanged. -/
theorem dictGet_dictSet_ne (d : List (String × Val)) (k k1 : String) (v : Val)
    (h : k1 ≠ k) : dictGet (dictSet d k v) k1 = dictGet d k1 := by
  have hkk : (k == k1) = false := by
    simp only [beq_eq_false_iff_ne]
    exact Ne.symm h
  induction d with
  | nil =>
    rw [dictSet, dictGet, dictGet]
    simp only [List.find?]
    rw [hkk]
  | cons p rest ih =>
    obtain ⟨k0, v0⟩ := p
    rw [dictSet]
    by_cases hk : k0 = k
    · subst hk
      rw [if_pos (by simp)]
      rw [dictGet, dictGet]
      simp only [List.find?]
      rw [hkk]
    · rw [if_neg (by simp [hk])]
      rw [dictGet, dictGet] at ih ⊢
      simp only [List.find?]
      cases hc : (k0 == k1) with
      | true => rfl
      | false => exact ih

/-- A loop whose body succeeds on every element, with each result related to
its input, produces the list of results related elementwise. -/
theorem mapExcept_forall (f : Val → Except PyExc Val) (P : Val → Val → Prop)
    (l : List Val)
    (h : ∀ x ∈ l, ∃ y, f x = .ok y ∧ P x y) :
    ∃ l1, mapExcept f l = .ok l1 ∧ List.Forall₂ P l l1 := by
  induction l with
  | nil => exact ⟨[], rfl, .nil⟩
  | cons x xs ih =>
    obtain ⟨y, hy, hp⟩ := h x (by simp)
    obtain ⟨ys, hys, hps⟩ := ih (fun z hz => h z (by simp [hz]))
    refine ⟨y :: ys, ?_, .cons hp hps⟩
    rw [mapExcept]
    simp [Bind.bind, Except.bind, hy, hys, Pure.pure, Except.pure]

/-- What the (amended) claim says happens to a single reply dict: every field
other than `bodyHTML` unchanged, and `bodyHTML` wrapped as markup exactly
when it is present and truthy (non-empty), kept as-is otherwise. -/
def ReplySpec (r r1 : List (String × Val)) : Prop :=
  (∀ k, k ≠ "bodyHTML" → dictGet r1 k = dictGet r k) ∧
  dictGet r1 "bodyHTML" =
    (dictGet r "bodyHTML").map (fun b => if b.truthy then wrapMarkup b else b)

/-- The relation `ReplySpec` lifted to reply-list elements (which are dicts). -/
def ReplyValSpec (v v1 : Val) : Prop :=
  ∃ r r1, v = .vobj r ∧ v1 = .vobj r1 ∧ ReplySpec r r1

/-- What the claim says happens to a comment's replies entry: a list of
reply dicts is transformed elementwise; anything else (absent, or falsy) is
unchanged. -/
def RepliesSpec : Option Val → Option Val → Prop
  | some (.varr rs), o1 => ∃ rs1, o1 = some (.varr rs1) ∧ List.Forall₂ ReplyValSpec rs rs1
  | o, o1 => o1 = o

/-- What the (amended) claim says happens to a single comment dict: every
field other than `bodyHTML_safe` and `replies` unchanged; `bodyHTML_safe`
set to its `bodyHTML` wrapped as markup (empty markup when `bodyHTML` is
absent or falsy); replies transformed per `RepliesSpec`. -/
def CommentSpec (c c1 : List (String × Val)) : Prop :=
  (∀ k, k ≠ "bodyHTML_safe" → k ≠ "replies" → dictGet c1 k = dictGet c k) ∧
  dictGet c1 "bodyHTML_safe" = some
    (match dictGet c "bodyHTML" with
     | some b => if b.truthy then wrapMarkup b else .vmarkup ""
     | none => .vmarkup "") ∧
  RepliesSpec (dictGet c "replies") (dictGet c1 "replies")

/-- The relation `CommentSpec` lifted to comment-list elements (which are dicts). -/
def CommentValSpec (v v1 : Val) : Prop :=
  ∃ c c1, v = .vobj c ∧ v1 = .vobj c1 ∧ CommentSpec c c1

/-- What the claim says happens to the PR data's comments entry. -/
def CommentsSpec : Option Val → Option Val → Prop
  | some (.varr cs), o1 => ∃ cs1, o1 = some (.varr cs1) ∧ List.Forall₂ CommentValSpec cs cs1
  | o, o1 => o1 = o

/-- Whether a value is a dict. -/
def isObjDict : Val → Bool
  | .vobj _ => true
  | _ => false

/-- A `replies` entry the inner loop can process without raising: when
present and truthy, it is a list of dicts. -/
def wfRepliesEntry : Option Val → Bool
  | some (.varr rs) => rs.all isObjDict
  | some v => !v.truthy
  | none => true

/-- A comment dict the wrapping pass can process without raising. -/
def wfComment : Val → Bool
  | .vobj c => wfRepliesEntry (dictGet c "replies")
  | _ => false

/-- A `comments` entry the outer loop can process without raising: when
present and truthy, it is a list of processable comment dicts. -/
def wfCommentsEntry : Option Val → Bool
  | some (.varr cs) => cs.all wfComment
  | some v => !v.truthy
  | none => true

/-- A PR-data dict the wrapping pass can process without raising. -/
def wfPrData (fs : List (String × Val)) : Bool :=
  wfCommentsEntry (dictGet fs "comments")

/-- The inner loop body meets the claim's description of a reply. -/
theorem transformReply_meets_spec (r : List (String × Val)) :
    ReplySpec r (transformReply r) := by
  rw [ReplySpec, transformReply]
  rcases hb : dictGet r "bodyHTML" with _ | b
  · simp [hb]
  · dsimp only
    by_cases ht : b.truthy
    · rw [if_pos ht]
      refine ⟨fun k hk => dictGet_dictSet_ne r "bodyHTML" k (wrapMarkup b) hk, ?_⟩
      rw [dictGet_dictSet_self]
      simp [ht]
    · rw [if_neg ht]
      exact ⟨fun k hk => rfl, by rw [hb]; simp [ht]⟩

/-- A falsy value is (definitionally) one of the falsy constants of its
shape; used to reduce `if v.truthy` branches. -/
theorem transformComment_of_falsy (c : List (String × Val)) (rv : Val)
    (hr : dictGet c "replies" = some rv) (ht : rv.truthy = false) :
    transformComment c = .ok (dictSet c "bodyHTML_safe" (safeBody c)) := by
  rw [transformComment,
    dictGet_dictSet_ne c "bodyHTML_safe" "replies" _ (by decide), hr]
  rcases rv with _ | b | n | t | t | rs | fs
  · rfl
  · simp only [Val.truthy] at ht
    subst ht
    rfl
  · simp only [Val.truthy, bne_eq_false_iff_eq] at ht
    subst ht
    rfl
  · simp only [Val.truthy, bne_eq_false_iff_eq] at ht
    subst ht
    rfl
  · simp only [Val.truthy, bne_eq_false_iff_eq] at ht
    subst ht
    rfl
  · simp only [Val.truthy, Bool.not_eq_false', List.isEmpty_iff] at ht
    subst ht
    rfl
  · simp only [Val.truthy, Bool.not_eq_false', List.isEmpty_iff] at ht
    subst ht
    rfl

/-- The outer loop body meets the claim's description of a comment, for any
comment dict it can process without raising. -/
theorem transformComment_meets_spec (c : List (String × Val))
    (hwf : wfComment (.vobj c) = true) :
    ∃ c1, transformComment c = .ok c1 ∧ CommentSpec c c1 := by
  rw [wfComment] at hwf
  rcases hr : dictGet c "replies" with _ | rv
  · refine ⟨dictSet c "bodyHTML_safe" (safeBody c), ?_, ?_, ?_, ?_⟩
    · simp only [transformComment,
        dictGet_dictSet_ne c "bodyHTML_safe" "replies" _ (by decide), hr]
      rfl
    · exact fun k hk _ => dictGet_dictSet_ne c "bodyHTML_safe" k _ hk
    · rw [dictGet_dictSet_self]
      rfl
    · rw [dictGet_dictSet_ne c "bodyHTML_safe" "replies" _ (by decide), hr]
      exact rfl
  · by_cases ht : rv.truthy
    · rw [hr] at hwf
      rcases rv with _ | _ | _ | _ | _ | rs | _
      · simp [Val.truthy] at ht
      · simp_all [wfRepliesEntry, Val.truthy]
      · simp_all [wfRepliesEntry, Val.truthy]
      · simp_all [wfRepliesEntry, Val.truthy]
      · simp_all [wfRepliesEntry, Val.truthy]
      · rw [wfRepliesEntry] at hwf
        rcases rs with _ | ⟨a, tl⟩
        · simp [Val.truthy] at ht
        · obtain ⟨rs1, hmap, hforall⟩ :=
            mapExcept_forall transformReplyElem ReplyValSpec (a :: tl) (by
              intro x hx
              have hobj := List.all_eq_true.mp hwf x hx
              rcases x with _ | _ | _ | _ | _ | _ | r
              · simp [isObjDict] at hobj
              · simp [isObjDict] at hobj
              · simp [isObjDict] at hobj
              · simp [isObjDict] at hobj
              · simp [isObjDict] at hobj
              · simp [isObjDict] at hobj
              · exact ⟨.vobj (transformReply r), rfl,
                  r, transformReply r, rfl, rfl, transformReply_meets_spec r⟩)
          refine ⟨dictSet (dictSet c "bodyHTML_safe" (safeBody c)) "replies"
            (.varr rs1), ?_, ?_, ?_, ?_⟩
          · have heq : transformComment c = (do
                let rs2 ← mapExcept transformReplyElem (a :: tl)
                pure (dictSet (dictSet c "bodyHTML_safe" (safeBody c)) "replies"
                  (.varr rs2))) := by
              simp only [transformComment,
                dictGet_dictSet_ne c "bodyHTML_safe" "replies" _ (by decide), hr]
              rfl
            rw [heq]
            simp [Bind.bind, Except.bind, hmap, Pure.pure, Except.pure]
          · intro k hk1 hk2
            rw [dictGet_dictSet_ne _ "replies" k _ hk2,
              dictGet_dictSet_ne c "bodyHTML_safe" k _ hk1]
          · rw [dictGet_dictSet_ne _ "replies" "bodyHTML_safe" _ (by decide),
              dictGet_dictSet_self]
            rfl
          · rw [dictGet_dictSet_self, hr]
            exact ⟨rs1, rfl, hforall⟩
      · simp_all [wfRepliesEntry, Val.truthy]
    · rw [Bool.not_eq_true] at ht
      refine ⟨dictSet c "bodyHTML_safe" (safeBody c),
        transformComment_of_falsy c rv hr ht, ?_, ?_, ?_⟩
      · exact fun k hk _ => dictGet_dictSet_ne c "bodyHTML_safe" k _ hk
      · rw [dictGet_dictSet_self]
        rfl
      · rw [dictGet_dictSet_ne c "bodyHTML_safe" "replies" _ (by decide), hr]
        rcases rv with _ | _ | _ | _ | _ | rs | _
        · exact rfl
        · exact rfl
        · exact rfl
        · exact rfl
        · exact rfl
        · have hnil : rs = [] := by
            rcases rs with _ | ⟨a, tl⟩
            · rfl
            · simp [Val.truthy] at ht
          subst hnil
          exact ⟨[], rfl, .nil⟩
        · exact rfl

/-- When the comments entry is present but falsy, the wrapping pass leaves
the PR data unchanged. -/
theorem transformPrData_of_falsy (fs : List (String × Val)) (cv : Val)
    (hc : dictGet fs "comments" = some cv) (htv : cv.truthy = false) :
    transformPrData fs = .ok fs := by
  rw [transformPrData, hc]
  rcases cv with _ | b | n | t | t | cs | gs
  · rfl
  · simp only [Val.truthy] at htv
    subst htv
    rfl
  · simp only [Val.truthy, bne_eq_false_iff_eq] at htv
    subst htv
    rfl
  · simp only [Val.truthy, bne_eq_false_iff_eq] at htv
    subst htv
    rfl
  · simp only [Val.truthy, bne_eq_false_iff_eq] at htv
    subst htv
    rfl
  · simp only [Val.truthy, Bool.not_eq_false', List.isEmpty_iff] at htv
    subst htv
    rfl
  · simp only [Val.truthy, Bool.not_eq_false', List.isEmpty_iff] at htv
    subst htv
    rfl

/-- The wrapping pass over well-formed PR data succeeds and meets the
claim's field-level description. -/
theorem transformPrData_meets_spec (fs : List (String × Val))
    (hwf : wfPrData fs = true) :
    ∃ fs1, transformPrData fs = .ok fs1 ∧
      (∀ k, k ≠ "comments" → dictGet fs1 k = dictGet fs k) ∧
      CommentsSpec (dictGet fs "comments") (dictGet fs1 "comments") := by
  rw [wfPrData] at hwf
  rcases hc : dictGet fs "comments" with _ | cv
  · refine ⟨fs, ?_, fun k _ => rfl, ?_⟩
    · rw [transformPrData, hc]
      rfl
    · rw [hc]
      exact rfl
  · by_cases htv : cv.truthy
    · rw [hc] at hwf
      rcases cv with _ | _ | _ | _ | _ | cs | _
      · simp [Val.truthy] at htv
      · simp_all [wfCommentsEntry, Val.truthy]
      · simp_all [wfCommentsEntry, Val.truthy]
      · simp_all [wfCommentsEntry, Val.truthy]
      · simp_all [wfCommentsEntry, Val.truthy]
      · rw [wfCommentsEntry] at hwf
        rcases cs with _ | ⟨a, tl⟩
        · simp [Val.truthy] at htv
        · obtain ⟨cs1, hmap, hforall⟩ :=
            mapExcept_forall transformCommentElem CommentValSpec (a :: tl) (by
              intro x hx
              have hcwf := List.all_eq_true.mp hwf x hx
              rcases x with _ | _ | _ | _ | _ | _ | c
              · simp [wfComment] at hcwf
              · simp [wfComment] at hcwf
              · simp [wfComment] at hcwf
              · simp [wfComment] at hcwf
              · simp [wfComment] at hcwf
              · simp [wfComment] at hcwf
              · obtain ⟨c1, hceq, hcspec⟩ := transformComment_meets_spec c hcwf
                exact ⟨.vobj c1, by simp [transformCommentElem, hceq, Except.map],
                  c, c1, rfl, rfl, hcspec⟩)
          refine ⟨dictSet fs "comments" (.varr cs1), ?_, ?_, ?_⟩
          · have heq : transformPrData fs = (do
                let cs2 ← mapExcept transformCommentElem (a :: tl)
                pure (dictSet fs "comments" (.varr cs2))) := by
              simp only [transformPrData, hc]
              rfl
            rw [heq]
            simp [Bind.bind, Except.bind, hmap, Pure.pure, Except.pure]
          · exact fun k hk => dictGet_dictSet_ne fs "comments" k _ hk
          · rw [dictGet_dictSet_self]
            exact ⟨cs1, rfl, hforall⟩
      · simp_all [wfCommentsEntry, Val.truthy]
    · rw [Bool.not_eq_true] at htv
      refine ⟨fs, transformPrData_of_falsy fs cv hc htv, fun k _ => rfl, ?_⟩
      rw [hc]
      rcases cv with _ | _ | _ | _ | _ | cs | _
      · exact rfl
      · exact rfl
      · exact rfl
      · exact rfl
      · exact rfl
      · have hnil : cs = [] := by
          rcases cs with _ | ⟨a, tl⟩
          · rfl
          · simp [Val.truthy] at htv
        subst hnil
        exact ⟨[], rfl, .nil⟩
      · exact rfl

/-- A behaviour whose PR data holds one comment with body "c" and one reply
whose `bodyHTML` is present but empty, used for the C5 counterexample. -/
def apiReplyEmptyBody : GitHubAPI :=
  { get_repo_info := .ok [("owner", .vstr "me"), ("name", .vstr "repo")]
    get_my_pr_list := fun _ => .ok (.varr [])
    get_comments_for_pr := fun _ _ _ _ => .ok (.vobj
      [("comments", .varr [.vobj
        [("bodyHTML", .vstr "c"),
         ("replies", .varr [.vobj [("bodyHTML", .vstr "")]])]])])
    add_reply_to_comment := fun _ _ _ _ _ => .ok () }

/-- Claim C5 counterexample: in the PR detail response for this concrete
input, the reply's `bodyHTML` is present (the empty string) yet remains the
plain string `vstr ""` — it is not wrapped as markup, which would give the
distinct value `wrapMarkup (vstr "") = vmarkup ""` — refuting "each reply's
bodyHTML is wrapped as markup when present". -/
theorem pr_detail_reply_wrap_counterexample :
    (pr_detail defaultConfig apiReplyEmptyBody 1 ⟨none, none⟩).1 =
      .html "pr_detail.html"
        [("pr", .vobj [("comments", .varr [.vobj
            [("bodyHTML", .vstr "c"),
             ("replies", .varr [.vobj [("bodyHTML", .vstr "")]]),
             ("bodyHTML_safe", .vmarkup "c")]])]),
         ("owner", .vstr "me"), ("name", .vstr "repo"),
         ("include_resolved", .vbool false), ("compact_mode", .vbool false),
         ("config", cfgVal defaultConfig)] 200 ∧
    Val.vstr "" ≠ wrapMarkup (.vstr "") :=
  ⟨rfl, by simp [wrapMarkup]⟩

/-- Claim C5 (amended): the PR detail operation renders exactly the wrapped
PR data, and for every processable PR data dict the wrapping pass succeeds
and changes nothing except: fields of the PR data other than comments are
unchanged; each comment keeps every field other than `bodyHTML_safe` and
`replies`, gains `bodyHTML_safe` equal to its `bodyHTML` wrapped as markup
(empty markup when absent or empty), and has its replies transformed
elementwise; each reply keeps every field other than `bodyHTML`, whose value
is wrapped as markup when present and non-empty and kept as-is otherwise. -/
theorem pr_detail_frame_effect (cfg : Config) (api : GitHubAPI) (prn : Nat)
    (dreq : DetailRequest) :
    (∀ o n pr_data pr1, repoOwnerName api = .ok (o, n) →
      api.get_comments_for_pr o n prn
        (pyLower (dreq.include_resolved.getD "false") == "true") = .ok pr_data →
      pr_data.truthy = true →
      transformPrDataVal pr_data = .ok pr1 →
      (pr_detail cfg api prn dreq).1 =
        .html "pr_detail.html"
          [("pr", pr1), ("owner", o), ("name", n),
           ("include_resolved",
            .vbool (pyLower (dreq.include_resolved.getD "false") == "true")),
           ("compact_mode",
            .vbool (pyLower (dreq.compact_mode.getD "false") == "true")),
           ("config", cfgVal cfg)] 200) ∧
    (∀ fs, wfPrData fs = true →
      ∃ fs1, transformPrData fs = .ok fs1 ∧
        (∀ k, k ≠ "comments" → dictGet fs1 k = dictGet fs k) ∧
        CommentsSpec (dictGet fs "comments") (dictGet fs1 "comments")) := by
  constructor
  · intro o n pr_data pr1 h1 h2 ht htr
    unfold pr_detail
    rw [h1]
    dsimp only
    rw [h2]
    simp [ht, htr]
  · exact transformPrData_meets_spec

/-- Witness for the amended C5 at a concrete PR data dict. -/
theorem pr_detail_frame_effect_witness :
    ∃ fs1, transformPrData
        [("title", .vstr "t"),
         ("comments", .varr [.vobj [("bodyHTML", .vstr "hello")]])] = .ok fs1 ∧
      (∀ k, k ≠ "comments" → dictGet fs1 k =
        dictGet [("title", .vstr "t"),
          ("comments", .varr [.vobj [("bodyHTML", .vstr "hello")]])] k) ∧
      CommentsSpec
        (dictGet [("title", .vstr "t"),
          ("comments", .varr [.vobj [("bodyHTML", .vstr "hello")]])] "comments")
        (dictGet fs1 "comments") :=
  (pr_detail_frame_effect defaultConfig apiAllOk 1 ⟨none, none⟩).2
    [("title", .vstr "t"),
     ("comments", .varr [.vobj [("bodyHTML", .vstr "hello")]])] rfl

end ViewReview
